import Mathlib

/-!
Verification of the `ecom-search-engine` repository's search-and-filter
behaviour against its specification.

The repository contains two variants of the `/api/search` surface:

* a "simple" Express app (`src/app.js` of the basic variant) whose search
  handler filters an inline three-product catalog on name/description,
  category, and price bounds, and reports pagination metadata;
* a "rich" variant built from `ProductService` (Elasticsearch primary path
  with an in-memory `_fallbackSearch` over an ASIN-keyed catalog),
  `ProductController`, and routers.

The definitions below are a shallow embedding of that JavaScript code.
Query-string parameters are modelled as `Option String` (`none` = parameter
absent). JavaScript numbers relevant here are modelled as `Option ℚ`
(`none` = `NaN`; no infinities arise on the inputs considered). The JS
coercion functions (`Number`, `parseInt`, `parseFloat`,
`Array.prototype.slice` index normalisation) are modelled on the grammar of
optionally signed decimal literals; every other string coerces to `NaN`,
which agrees with JavaScript on all inputs exercised by the claims.
-/

namespace Ecom

/-! ### JavaScript primitive semantics -/

/-- Truthiness of an optional query-string value: absent and the empty
string are falsy, every other string is truthy. -/
def truthy : Option String → Bool
  | none => false
  | some s => s != ""

/-- Numeric value of a decimal digit character. -/
def digitVal (c : Char) : ℕ := c.toNat - 48

/-- Value of a list of decimal digit characters read in base 10. -/
def digitsVal (cs : List Char) : ℕ := cs.foldl (fun n c => 10 * n + digitVal c) 0

/-- Split an optional leading sign from a character list, returning the
sign as a rational factor. -/
def splitSign : List Char → ℚ × List Char
  | '-' :: r => (-1, r)
  | '+' :: r => (1, r)
  | r => (1, r)

/-- JavaScript `Number(s)` (string-to-number coercion), restricted to
optionally signed decimal literals `[+-]?digits[.digits]`; the empty string
coerces to `0` and every other string to `NaN` (`none`).  This agrees with
JavaScript on all inputs appearing in the claims. -/
def jsToNumber (s : String) : Option ℚ :=
  if s.data = [] then some 0
  else
    let (sgn, rest) := splitSign s.data
    let intDigits := rest.takeWhile Char.isDigit
    if intDigits = [] then none
    else
      match rest.drop intDigits.length with
      | [] => some (sgn * digitsVal intDigits)
      | '.' :: fr =>
        if fr.all Char.isDigit then
          some (sgn * (digitsVal intDigits + (digitsVal fr : ℚ) / 10 ^ fr.length))
        else none
      | _ => none

/-- JavaScript `parseInt(s)` (base 10): parses the longest optionally
signed decimal-digit prefix, `NaN` (`none`) if there is none.  Leading
whitespace and `0x` prefixes are not modelled (not exercised). -/
def jsParseInt (s : String) : Option ℤ :=
  let (sgn, rest) := splitSign s.data
  let ds := rest.takeWhile Char.isDigit
  if ds = [] then none else some ((if sgn < 0 then -1 else 1) * (digitsVal ds : ℤ))

/-- JavaScript `parseFloat(s)`: parses the longest optionally signed
`digits[.digits]` prefix, `NaN` (`none`) if there is none. -/
def jsParseFloat (s : String) : Option ℚ :=
  let (sgn, rest) := splitSign s.data
  let ds := rest.takeWhile Char.isDigit
  if ds = [] then none
  else
    match rest.drop ds.length with
    | '.' :: fr =>
      let fd := fr.takeWhile Char.isDigit
      some (sgn * (digitsVal ds + (digitsVal fd : ℚ) / 10 ^ fd.length))
    | _ => some (sgn * digitsVal ds)

/-- JavaScript addition with `NaN` propagation. -/
def jadd : Option ℚ → Option ℚ → Option ℚ
  | some a, some b => some (a + b)
  | _, _ => none

/-- JavaScript subtraction with `NaN` propagation. -/
def jsub : Option ℚ → Option ℚ → Option ℚ
  | some a, some b => some (a - b)
  | _, _ => none

/-- JavaScript multiplication with `NaN` propagation (note `0 * NaN = NaN`). -/
def jmul : Option ℚ → Option ℚ → Option ℚ
  | some a, some b => some (a * b)
  | _, _ => none

/-- ECMAScript `truncate` (round toward zero) of a finite number. -/
def jsTrunc (q : ℚ) : ℤ :=
  if q < 0 then -Int.floor (-q) else Int.floor q

/-- ECMAScript slice-index normalisation: `ToIntegerOrInfinity` (with
`NaN ↦ 0`) followed by the negative-index adjustment and clamping of
`Array.prototype.slice`. -/
def jsNormIdx (len : ℕ) : Option ℚ → ℕ
  | none => 0
  | some q =>
    let t := jsTrunc q
    if t < 0 then ((len : ℤ) + t).toNat else min t.toNat len

/-- ECMAScript `Array.prototype.slice(start, end)` on a list, with both
arguments JavaScript numbers (`none` = `NaN`). -/
def jsSlice {α : Type} (l : List α) (s e : Option ℚ) : List α :=
  let k := jsNormIdx l.length s
  let f := jsNormIdx l.length e
  (l.drop k).take (f - k)

/-- Lower-cased character sequence of a string: JavaScript
`s.toLowerCase()` (the catalog data is ASCII, where `Char.toLower` agrees
with JavaScript). -/
def lowerChars (s : String) : List Char := s.data.map Char.toLower

/-- JavaScript `hay.includes(needle)` on character sequences. -/
def includesB (hay needle : List Char) : Bool := decide (needle <:+: hay)

/-! ### Rich variant: `ProductService` data model and catalog
(`src/services/product-service.js`) -/

/-- A product record of the ASIN-keyed catalog (`_initializeDummyData`). -/
structure RichProduct where
  asin : String
  title : String
  imgUrl : String
  productURL : String
  stars : ℚ
  reviews : ℕ
  price : ℚ
  listPrice : ℚ
  category_id : ℕ
  isBestSeller : Bool
  boughtInLastMonth : ℕ
deriving DecidableEq, Repr

/-- First seeded product of `ProductService._initializeDummyData`. -/
def sionLuggage : RichProduct :=
  { asin := "B014TMV5YE"
    title := "Sion Softside Expandable Roller Luggage, Black, Checked-Large 29-Inch"
    imgUrl := "https://m.media-amazon.com/images/I/815dLQKYIYL._AC_UL320_.jpg"
    productURL := "https://www.amazon.com/dp/B014TMV5YE"
    stars := 4.5
    reviews := 0
    price := 139.99
    listPrice := 0.0
    category_id := 104
    isBestSeller := false
    boughtInLastMonth := 2000 }

/-- Second seeded product of `ProductService._initializeDummyData`. -/
def samsoniteLuggage : RichProduct :=
  { asin := "B08N5WRWNW"
    title := "Samsonite Omni PC Hardside Expandable Luggage with Spinner Wheels"
    imgUrl := "https://m.media-amazon.com/images/I/81L+gu1bLJL._AC_UL320_.jpg"
    productURL := "https://www.amazon.com/dp/B08N5WRWNW"
    stars := 4.7
    reviews := 15234
    price := 119.99
    listPrice := 159.99
    category_id := 104
    isBestSeller := true
    boughtInLastMonth := 5000 }

/-- Third seeded product of `ProductService._initializeDummyData`. -/
def airpodsPro : RichProduct :=
  { asin := "B07ZPKN6YR"
    title := "Apple AirPods Pro (2nd Generation) Wireless Earbuds"
    imgUrl := "https://m.media-amazon.com/images/I/61SUj2aKoEL._AC_UL320_.jpg"
    productURL := "https://www.amazon.com/dp/B07ZPKN6YR"
    stars := 4.8
    reviews := 89453
    price := 249.99
    listPrice := 279.99
    category_id := 201
    isBestSeller := true
    boughtInLastMonth := 15000 }

/-- The array assigned to `this.products` by `_initializeDummyData`. -/
def seedProducts : List RichProduct := [sionLuggage, samsoniteLuggage, airpodsPro]

/-- The filter object destructured by `searchProducts` / `_fallbackSearch`:
`{ category_id, minPrice, maxPrice, isBestSeller, minStars }`.  Each field
is the raw query-string value (`none` = the key is absent/undefined). -/
structure ServiceFilters where
  category_id : Option String
  minPrice : Option String
  maxPrice : Option String
  isBestSeller : Option String
  minStars : Option String
deriving DecidableEq, Repr

/-- The filter object with no keys supplied. -/
def noFilters : ServiceFilters := ⟨none, none, none, none, none⟩

/-- The `_fallbackSearch` text-match predicate:
`product.title.toLowerCase().includes(lowerQuery) ||
 product.asin.toLowerCase().includes(lowerQuery)`. -/
def queryMatches (q : String) (p : RichProduct) : Bool :=
  includesB (lowerChars p.title) (lowerChars q) ||
    includesB (lowerChars p.asin) (lowerChars q)

/-- Model of `if (query) { results = results.filter(...) }`. -/
def applyQueryFilter (q : Option String) (l : List RichProduct) : List RichProduct :=
  match q with
  | none => l
  | some s => if s = "" then l else l.filter (queryMatches s)

/-- Predicate `product.category_id === parseInt(category_id)`; a `NaN` parse makes
the strict equality false for every product. -/
def categoryPred (s : String) (p : RichProduct) : Bool :=
  match jsParseInt s with
  | some v => (p.category_id : ℤ) == v
  | none => false

/-- Model of `if (category_id) { results = results.filter(...) }`. -/
def applyCategoryFilter (c : Option String) (l : List RichProduct) : List RichProduct :=
  match c with
  | none => l
  | some s => if s = "" then l else l.filter (categoryPred s)

/-- Predicate `product.price >= parseFloat(minPrice)`; false for every product when
the parse is `NaN`. -/
def minPricePred (s : String) (p : RichProduct) : Bool :=
  match jsParseFloat s with
  | some v => decide (v ≤ p.price)
  | none => false

/-- Model of `if (minPrice) { results = results.filter(...) }`. -/
def applyMinPriceFilter (c : Option String) (l : List RichProduct) : List RichProduct :=
  match c with
  | none => l
  | some s => if s = "" then l else l.filter (minPricePred s)

/-- Predicate `product.price <= parseFloat(maxPrice)`. -/
def maxPricePred (s : String) (p : RichProduct) : Bool :=
  match jsParseFloat s with
  | some v => decide (p.price ≤ v)
  | none => false

/-- Model of `if (maxPrice) { results = results.filter(...) }`. -/
def applyMaxPriceFilter (c : Option String) (l : List RichProduct) : List RichProduct :=
  match c with
  | none => l
  | some s => if s = "" then l else l.filter (maxPricePred s)

/-- Predicate `product.stars >= parseFloat(minStars)`. -/
def minStarsPred (s : String) (p : RichProduct) : Bool :=
  match jsParseFloat s with
  | some v => decide (v ≤ p.stars)
  | none => false

/-- Model of `if (minStars) { results = results.filter(...) }`. -/
def applyMinStarsFilter (c : Option String) (l : List RichProduct) : List RichProduct :=
  match c with
  | none => l
  | some s => if s = "" then l else l.filter (minStarsPred s)

/-- Model of `if (isBestSeller !== undefined) { const isBest = isBestSeller === 'true'
|| isBestSeller === true; results = results.filter(p => p.isBestSeller ===
isBest) }`.  Over HTTP the value is a string, so `isBest` is exactly
`s == "true"`.  Note the filter applies for any present value, including
the empty string. -/
def applyBestSellerFilter (c : Option String) (l : List RichProduct) : List RichProduct :=
  match c with
  | none => l
  | some s => l.filter (fun p => p.isBestSeller == (s == "true"))

/-- Numeric coercion of a boolean, as in `b.isBestSeller - a.isBestSeller`. -/
def jsBoolNum (b : Bool) : ℚ := if b then 1 else 0

/-- The `_fallbackSearch` sort comparator:
best-seller flag descending, then stars descending, then
`boughtInLastMonth` descending. -/
def jsComparator (a b : RichProduct) : ℚ :=
  if a.isBestSeller ≠ b.isBestSeller then jsBoolNum b.isBestSeller - jsBoolNum a.isBestSeller
  else if a.stars ≠ b.stars then b.stars - a.stars
  else (b.boughtInLastMonth : ℚ) - (a.boughtInLastMonth : ℚ)

/-- Relation stating that `a` may precede `b` for the comparator, the relation a comparator
sort establishes between ordered pairs of the output. -/
def jsSortLe (a b : RichProduct) : Bool := decide (jsComparator a b ≤ 0)

/-- Model of `ProductService._fallbackSearch(query, filters)` over a catalog
`products` (`this.products`): copy, filter by query and each supplied
filter, then sort with the comparator.  `Array.prototype.sort` is a stable
sort consistent with the comparator; `List.mergeSort` is its model. -/
def fallbackSearch (products : List RichProduct) (query : Option String)
    (f : ServiceFilters) : List RichProduct :=
  ((applyBestSellerFilter f.isBestSeller
      (applyMinStarsFilter f.minStars
        (applyMaxPriceFilter f.maxPrice
          (applyMinPriceFilter f.minPrice
            (applyCategoryFilter f.category_id
              (applyQueryFilter query products)))))).mergeSort jsSortLe)

/-! ### Rich variant: `searchProducts` (primary path and fallback) -/

/-- One hit of an Elasticsearch response: `_source`, `_score`, `_id`. -/
structure EsHit where
  source : RichProduct
  score : ℚ
  id : String
deriving DecidableEq, Repr

/-- A record returned by `searchProducts`.  The primary path returns
`{ ...hit._source, _score: hit._score, _id: hit._id }`; the fallback path
returns the bare catalog record, so both extra attributes are absent
(`none`). -/
structure SearchRecord where
  source : RichProduct
  score : Option ℚ
  esId : Option String
deriving DecidableEq, Repr

/-- Model of `ProductService.searchProducts(query, filters)`.  The interaction with
the external engine is abstracted by `esOutcome`: `Except.ok hits` models a
successful response, `Except.error e` models any failure (connection
error, timeout, non-success or malformed response — everything the `catch`
block receives).  On failure the method returns `_fallbackSearch` instead
of propagating the error. -/
def searchProducts (products : List RichProduct) (esOutcome : Except String (List EsHit))
    (query : Option String) (f : ServiceFilters) : List SearchRecord :=
  match esOutcome with
  | Except.ok hits => hits.map (fun h => ⟨h.source, some h.score, some h.id⟩)
  | Except.error _ => (fallbackSearch products query f).map (fun p => ⟨p, none, none⟩)

/-! ### Rich variant: `ProductService` as a state machine

The only mutable state of the service is `this.products`, assigned once by
`_initializeDummyData` in the constructor.  Each operation is modelled as
returning its result together with the post-state; `_fallbackSearch`
filters and sorts a spread copy (`[...this.products]`), so no operation
writes `this.products`. -/

/-- The state of a `ProductService` instance. -/
structure ServiceState where
  products : List RichProduct
deriving DecidableEq, Repr

/-- The state established by the constructor (`_initializeDummyData`). -/
def initService : ServiceState := ⟨seedProducts⟩

/-- The `_fallbackSearch` method as an operation on the service state. -/
def fallbackSearchOp (st : ServiceState) (q : Option String) (f : ServiceFilters) :
    List RichProduct × ServiceState :=
  (fallbackSearch st.products q f, st)

/-- The `searchProducts` method as an operation on the service state. -/
def searchProductsOp (st : ServiceState) (esOutcome : Except String (List EsHit))
    (q : Option String) (f : ServiceFilters) : List SearchRecord × ServiceState :=
  (searchProducts st.products esOutcome q f, st)

/-- Model of `getProductById(asin)`: `this.products.find(p => p.asin === asin)`,
`null` (`none`) when absent. -/
def getProductById (products : List RichProduct) (asin : String) : Option RichProduct :=
  products.find? (fun p => p.asin == asin)

/-- The `getProductById` method as an operation on the service state. -/
def getProductByIdOp (st : ServiceState) (asin : String) :
    Option RichProduct × ServiceState :=
  (getProductById st.products asin, st)

/-! ### Rich variant: `ProductController.search` and pagination -/

/-- The query-string parameters a request to the rich variant may carry.
The controller destructures only `query`, `category`, `minPrice`,
`maxPrice`, `page` and `limit`; the remaining fields exist so that claims
about supplied-but-ignored filters can be stated. -/
structure RichQuery where
  query : Option String
  category : Option String
  category_id : Option String
  minPrice : Option String
  maxPrice : Option String
  minStars : Option String
  isBestSeller : Option String
  page : Option String
  limit : Option String
deriving DecidableEq, Repr

/-- A request carrying only a `query` parameter. -/
def queryOnly (q : String) : RichQuery :=
  ⟨some q, none, none, none, none, none, none, none, none⟩

/-- The `ToNumber` coercion of the destructured `page` value (`page = 1` default). -/
def pageNumber : Option String → Option ℚ
  | none => some 1
  | some s => jsToNumber s

/-- The `parseInt` coercion of the destructured `page` value. -/
def pageInt : Option String → Option ℤ
  | none => some 1
  | some s => jsParseInt s

/-- The `ToNumber` coercion of the destructured `limit` value (`limit = 10` default). -/
def limitNumber : Option String → Option ℚ
  | none => some 10
  | some s => jsToNumber s

/-- The `parseInt` coercion of the destructured `limit` value. -/
def limitInt : Option String → Option ℤ
  | none => some 10
  | some s => jsParseInt s

/-- Numeric coercion `ℤ → ℚ` lifted over `NaN`, used for the
`+ parseInt(limit)` summand of the slice end index. -/
def intToNum : Option ℤ → Option ℚ
  | none => none
  | some i => some ((i : ℚ))

/-- Model of `Math.ceil(total / limit)` as serialised into the response:
`Math.ceil` is the mathematical ceiling on finite values; a `NaN`
limit gives `NaN`, a zero limit gives `Infinity` (or `NaN` for `0/0`), and
`JSON.stringify` serialises all of those as `null` (`none`). -/
def jsPages (total : ℕ) (limitN : Option ℚ) : Option ℤ :=
  match limitN with
  | none => none
  | some l => if l = 0 then none else some (Int.ceil ((total : ℚ) / l))

/-- The response of `ProductController.search`.  The `catch` branch (500)
is unreachable in this model because `searchProducts` always returns a
list: every engine failure is consumed by its fallback. -/
inductive RichResponse where
  | badRequest (error message : String)
  | ok (query : String) (category minPrice maxPrice : Option String)
      (page limit pages : Option ℤ) (total : ℕ) (results : List SearchRecord)
deriving DecidableEq, Repr

/-- HTTP status of a `RichResponse`. -/
def RichResponse.statusCode : RichResponse → ℕ
  | badRequest _ _ => 400
  | ok _ _ _ _ _ _ _ _ _ => 200

/-- The `results` array (empty on the 400 branch, which sends none). -/
def RichResponse.resultsList : RichResponse → List SearchRecord
  | badRequest _ _ => []
  | ok _ _ _ _ _ _ _ _ rs => rs

/-- The reported `pagination.total`. -/
def RichResponse.totalCount : RichResponse → ℕ
  | badRequest _ _ => 0
  | ok _ _ _ _ _ _ _ t _ => t

/-- The reported `pagination.page` (`none` = serialised `null`). -/
def RichResponse.pageField : RichResponse → Option ℤ
  | badRequest _ _ => none
  | ok _ _ _ _ p _ _ _ _ => p

/-- The reported `pagination.limit` (`none` = serialised `null`). -/
def RichResponse.limitField : RichResponse → Option ℤ
  | badRequest _ _ => none
  | ok _ _ _ _ _ l _ _ _ => l

/-- The reported `pagination.pages` (`none` = serialised `null`). -/
def RichResponse.pagesField : RichResponse → Option ℤ
  | badRequest _ _ => none
  | ok _ _ _ _ _ _ pg _ _ => pg

/-- The `error` field of the body, when present. -/
def RichResponse.errorField : RichResponse → Option String
  | badRequest e _ => some e
  | ok _ _ _ _ _ _ _ _ _ => none

/-- Model of `ProductController.search(req, res)`.

The controller validates `query`, calls
`searchProducts(query, { category, minPrice, maxPrice })`, slices the full
result with `startIndex = (page - 1) * limit` and
`endIndex = startIndex + parseInt(limit)`, and reports
`page = parseInt(page)`, `limit = parseInt(limit)`,
`total = allResults.length`, `pages = Math.ceil(allResults.length / limit)`.

Note the forwarded filter object uses the key `category`, while the
service destructures `category_id`, `isBestSeller` and `minStars`; those
three are therefore `undefined` (`none`) inside the service no matter what
the request supplied. -/
def controllerSearch (products : List RichProduct) (esOutcome : Except String (List EsHit))
    (rq : RichQuery) : RichResponse :=
  match rq.query with
  | none =>
    RichResponse.badRequest "Query parameter is required"
      "Please provide a search query using ?query=your-search-term"
  | some q =>
    if q = "" then
      RichResponse.badRequest "Query parameter is required"
        "Please provide a search query using ?query=your-search-term"
    else
      let allResults := searchProducts products esOutcome (some q)
        ⟨none, rq.minPrice, rq.maxPrice, none, none⟩
      let startIndex := jmul (jsub (pageNumber rq.page) (some 1)) (limitNumber rq.limit)
      let endIndex := jadd startIndex (intToNum (limitInt rq.limit))
      RichResponse.ok q rq.category rq.minPrice rq.maxPrice
        (pageInt rq.page) (limitInt rq.limit)
        (jsPages allResults.length (limitNumber rq.limit))
        allResults.length
        (jsSlice allResults startIndex endIndex)

/-! ### Simple variant (`src/app.js` with inline dummy data) -/

/-- A product of the simple variant's search catalog. -/
structure SimpleProduct where
  id : ℕ
  name : String
  category : String
  price : ℚ
  description : String
  inStock : Bool
deriving DecidableEq, Repr

/-- The `dummyProducts` array of the simple `/api/search` handler. -/
def dummyProducts : List SimpleProduct :=
  [{ id := 1
     name := "Wireless Bluetooth Headphones"
     category := "Electronics"
     price := 79.99
     description := "High-quality wireless headphones with noise cancellation"
     inStock := true },
   { id := 2
     name := "Smart Watch"
     category := "Electronics"
     price := 199.99
     description := "Feature-rich smartwatch with health tracking"
     inStock := true },
   { id := 3
     name := "Running Shoes"
     category := "Sports"
     price := 89.99
     description := "Comfortable running shoes for all terrains"
     inStock := false }]

/-- The query-string parameters destructured by the simple handler. -/
structure SimpleQuery where
  query : Option String
  category : Option String
  minPrice : Option String
  maxPrice : Option String
  page : Option String
  limit : Option String
deriving DecidableEq, Repr

/-- A simple-variant request carrying only a `query` parameter. -/
def simpleQueryOnly (q : String) : SimpleQuery := ⟨some q, none, none, none, none, none⟩

/-- Predicate `product.name.toLowerCase().includes(query.toLowerCase()) ||
product.description.toLowerCase().includes(query.toLowerCase())`. -/
def simpleNameDescPred (q : String) (p : SimpleProduct) : Bool :=
  includesB (lowerChars p.name) (lowerChars q) ||
    includesB (lowerChars p.description) (lowerChars q)

/-- Model of `if (category) { results = results.filter(p =>
p.category.toLowerCase() === category.toLowerCase()) }`. -/
def applySimpleCategoryFilter (c : Option String) (l : List SimpleProduct) :
    List SimpleProduct :=
  match c with
  | none => l
  | some s => if s = "" then l else l.filter (fun p => lowerChars p.category == lowerChars s)

/-- Predicate `product.price >= parseFloat(minPrice)` for the simple variant. -/
def simpleMinPricePred (s : String) (p : SimpleProduct) : Bool :=
  match jsParseFloat s with
  | some v => decide (v ≤ p.price)
  | none => false

/-- Model of `if (minPrice) { results = results.filter(...) }`. -/
def applySimpleMinPriceFilter (c : Option String) (l : List SimpleProduct) :
    List SimpleProduct :=
  match c with
  | none => l
  | some s => if s = "" then l else l.filter (simpleMinPricePred s)

/-- Predicate `product.price <= parseFloat(maxPrice)` for the simple variant. -/
def simpleMaxPricePred (s : String) (p : SimpleProduct) : Bool :=
  match jsParseFloat s with
  | some v => decide (p.price ≤ v)
  | none => false

/-- Model of `if (maxPrice) { results = results.filter(...) }`. -/
def applySimpleMaxPriceFilter (c : Option String) (l : List SimpleProduct) :
    List SimpleProduct :=
  match c with
  | none => l
  | some s => if s = "" then l else l.filter (simpleMaxPricePred s)

/-- The response of the simple `/api/search` handler.  Note that the
handler never slices: `results` is the full filtered list, while
`pagination` merely echoes `parseInt(page)`, `parseInt(limit)` and
`total = results.length`. -/
inductive SimpleResponse where
  | badRequest (error : String)
  | ok (query : String) (category minPrice maxPrice : Option String)
      (page limit : Option ℤ) (total : ℕ) (results : List SimpleProduct)
deriving DecidableEq, Repr

/-- HTTP status of a `SimpleResponse`. -/
def SimpleResponse.statusCode : SimpleResponse → ℕ
  | badRequest _ => 400
  | ok _ _ _ _ _ _ _ _ => 200

/-- The `results` array (empty on the 400 branch, which sends none). -/
def SimpleResponse.resultsList : SimpleResponse → List SimpleProduct
  | badRequest _ => []
  | ok _ _ _ _ _ _ _ rs => rs

/-- The reported `pagination.limit`. -/
def SimpleResponse.limitField : SimpleResponse → Option ℤ
  | badRequest _ => none
  | ok _ _ _ _ _ l _ _ => l

/-- The reported `pagination.total`. -/
def SimpleResponse.totalCount : SimpleResponse → ℕ
  | badRequest _ => 0
  | ok _ _ _ _ _ _ t _ => t

/-- The `error` field of the body, when present. -/
def SimpleResponse.errorField : SimpleResponse → Option String
  | badRequest e => some e
  | ok _ _ _ _ _ _ _ _ => none

/-- The simple variant's `GET /api/search` handler. -/
def simpleSearch (rq : SimpleQuery) : SimpleResponse :=
  match rq.query with
  | none => SimpleResponse.badRequest "Search query is required"
  | some q =>
    if q = "" then SimpleResponse.badRequest "Search query is required"
    else
      let r1 := dummyProducts.filter (simpleNameDescPred q)
      let r2 := applySimpleCategoryFilter rq.category r1
      let r3 := applySimpleMinPriceFilter rq.minPrice r2
      let r4 := applySimpleMaxPriceFilter rq.maxPrice r3
      SimpleResponse.ok q rq.category rq.minPrice rq.maxPrice
        (pageInt rq.page) (limitInt rq.limit) r4.length r4

/-- A product of the simple variant's `/api/products/:id` store. -/
structure DetailProduct where
  id : ℕ
  name : String
  category : String
  price : ℚ
  description : String
  inStock : Bool
  ratings : ℚ
  reviews : ℕ
deriving DecidableEq, Repr

/-- The object literal keyed by `'1'` and `'2'` inside the simple
`/api/products/:id` handler — it contains no entry for product 3. -/
def detailProducts (id : String) : Option DetailProduct :=
  if id = "1" then
    some { id := 1
           name := "Wireless Bluetooth Headphones"
           category := "Electronics"
           price := 79.99
           description := "High-quality wireless headphones with noise cancellation"
           inStock := true
           ratings := 4.5
           reviews := 120 }
  else if id = "2" then
    some { id := 2
           name := "Smart Watch"
           category := "Electronics"
           price := 199.99
           description := "Feature-rich smartwatch with health tracking"
           inStock := true
           ratings := 4.7
           reviews := 85 }
  else none

/-- The response of the simple `/api/products/:id` handler. -/
inductive DetailResponse where
  | notFound (error : String)
  | ok (product : DetailProduct)
deriving DecidableEq, Repr

/-- HTTP status of a `DetailResponse`. -/
def DetailResponse.statusCode : DetailResponse → ℕ
  | notFound _ => 404
  | ok _ => 200

/-- The simple variant's `GET /api/products/:id` handler. -/
def simpleGetProduct (id : String) : DetailResponse :=
  match detailProducts id with
  | some p => DetailResponse.ok p
  | none => DetailResponse.notFound "Product not found"

/-! ### Supporting lemmas -/

theorem jmul_none_right (x : Option ℚ) : jmul x none = none := by
  cases x <;> rfl

theorem jadd_none_left (y : Option ℚ) : jadd none y = none := by
  cases y <;> rfl

theorem jsNormIdx_none (len : ℕ) : jsNormIdx len none = 0 := rfl

theorem jsSlice_none_none {α : Type} (l : List α) : jsSlice l none none = [] := by
  simp [jsSlice, jsNormIdx]

theorem mem_of_mem_applyQueryFilter {q : Option String} {l : List RichProduct}
    {p : RichProduct} (h : p ∈ applyQueryFilter q l) : p ∈ l := by
  cases q with
  | none => simpa [applyQueryFilter] using h
  | some s =>
    by_cases hs : s = ""
    · simpa [applyQueryFilter, hs] using h
    · rw [applyQueryFilter, if_neg hs] at h
      exact (List.mem_filter.mp h).1

theorem mem_of_mem_applyCategoryFilter {c : Option String} {l : List RichProduct}
    {p : RichProduct} (h : p ∈ applyCategoryFilter c l) : p ∈ l := by
  cases c with
  | none => simpa [applyCategoryFilter] using h
  | some s =>
    by_cases hs : s = ""
    · simpa [applyCategoryFilter, hs] using h
    · rw [applyCategoryFilter, if_neg hs] at h
      exact (List.mem_filter.mp h).1

theorem mem_of_mem_applyMinPriceFilter {c : Option String} {l : List RichProduct}
    {p : RichProduct} (h : p ∈ applyMinPriceFilter c l) : p ∈ l := by
  cases c with
  | none => simpa [applyMinPriceFilter] using h
  | some s =>
    by_cases hs : s = ""
    · simpa [applyMinPriceFilter, hs] using h
    · rw [applyMinPriceFilter, if_neg hs] at h
      exact (List.mem_filter.mp h).1

theorem mem_of_mem_applyMaxPriceFilter {c : Option String} {l : List RichProduct}
    {p : RichProduct} (h : p ∈ applyMaxPriceFilter c l) : p ∈ l := by
  cases c with
  | none => simpa [applyMaxPriceFilter] using h
  | some s =>
    by_cases hs : s = ""
    · simpa [applyMaxPriceFilter, hs] using h
    · rw [applyMaxPriceFilter, if_neg hs] at h
      exact (List.mem_filter.mp h).1

theorem mem_of_mem_applyMinStarsFilter {c : Option String} {l : List RichProduct}
    {p : RichProduct} (h : p ∈ applyMinStarsFilter c l) : p ∈ l := by
  cases c with
  | none => simpa [applyMinStarsFilter] using h
  | some s =>
    by_cases hs : s = ""
    · simpa [applyMinStarsFilter, hs] using h
    · rw [applyMinStarsFilter, if_neg hs] at h
      exact (List.mem_filter.mp h).1

theorem mem_of_mem_applyBestSellerFilter {c : Option String} {l : List RichProduct}
    {p : RichProduct} (h : p ∈ applyBestSellerFilter c l) : p ∈ l := by
  cases c with
  | none => simpa [applyBestSellerFilter] using h
  | some s => exact (List.mem_filter.mp h).1

/-- Every member of a fallback result already occurs in the catalog it
searched. -/
theorem mem_catalog_of_mem_fallbackSearch {products : List RichProduct}
    {q : Option String} {f : ServiceFilters} {p : RichProduct}
    (h : p ∈ fallbackSearch products q f) : p ∈ products :=
  mem_of_mem_applyQueryFilter
    (mem_of_mem_applyCategoryFilter
      (mem_of_mem_applyMinPriceFilter
        (mem_of_mem_applyMaxPriceFilter
          (mem_of_mem_applyMinStarsFilter
            (mem_of_mem_applyBestSellerFilter (List.mem_mergeSort.mp h))))))

/-- Soundness of each supplied service-level filter: every record of a
`_fallbackSearch` result satisfies every filter that was supplied to the
service (with its own keys).  The prices and stars are compared against
the `parseFloat` of the supplied string; a string parsing to `NaN`
eliminates every record, so the corresponding conjunct is vacuous. -/
theorem fallbackSearch_filters_sound {products : List RichProduct}
    {q : Option String} {f : ServiceFilters} {p : RichProduct}
    (h : p ∈ fallbackSearch products q f) :
    (∀ s, f.category_id = some s → s ≠ "" →
      ∃ v, jsParseInt s = some v ∧ (p.category_id : ℤ) = v) ∧
    (∀ s, f.minPrice = some s → s ≠ "" →
      ∃ v, jsParseFloat s = some v ∧ v ≤ p.price) ∧
    (∀ s, f.maxPrice = some s → s ≠ "" →
      ∃ v, jsParseFloat s = some v ∧ p.price ≤ v) ∧
    (∀ s, f.minStars = some s → s ≠ "" →
      ∃ v, jsParseFloat s = some v ∧ v ≤ p.stars) ∧
    (∀ s, f.isBestSeller = some s → p.isBestSeller = (s == "true")) := by
  have h6 := List.mem_mergeSort.mp h
  have h5 := mem_of_mem_applyBestSellerFilter h6
  have h4 := mem_of_mem_applyMinStarsFilter h5
  have h3 := mem_of_mem_applyMaxPriceFilter h4
  have h2 := mem_of_mem_applyMinPriceFilter h3
  refine ⟨?_, ?_, ?_, ?_, ?_⟩
  · intro s hs hne
    rw [hs] at h2
    rw [applyCategoryFilter, if_neg hne] at h2
    have := (List.mem_filter.mp h2).2
    rw [categoryPred] at this
    cases hv : jsParseInt s with
    | none => rw [hv] at this; cases this
    | some v =>
      rw [hv] at this
      exact ⟨v, rfl, by exact_mod_cast of_decide_eq_true this⟩
  · intro s hs hne
    rw [hs] at h3
    rw [applyMinPriceFilter, if_neg hne] at h3
    have := (List.mem_filter.mp h3).2
    rw [minPricePred] at this
    cases hv : jsParseFloat s with
    | none => rw [hv] at this; cases this
    | some v =>
      rw [hv] at this
      exact ⟨v, rfl, of_decide_eq_true this⟩
  · intro s hs hne
    rw [hs] at h4
    rw [applyMaxPriceFilter, if_neg hne] at h4
    have := (List.mem_filter.mp h4).2
    rw [maxPricePred] at this
    cases hv : jsParseFloat s with
    | none => rw [hv] at this; cases this
    | some v =>
      rw [hv] at this
      exact ⟨v, rfl, of_decide_eq_true this⟩
  · intro s hs hne
    rw [hs] at h5
    rw [applyMinStarsFilter, if_neg hne] at h5
    have := (List.mem_filter.mp h5).2
    rw [minStarsPred] at this
    cases hv : jsParseFloat s with
    | none => rw [hv] at this; cases this
    | some v =>
      rw [hv] at this
      exact ⟨v, rfl, of_decide_eq_true this⟩
  · intro s hs
    rw [hs] at h6
    rw [applyBestSellerFilter] at h6
    have := (List.mem_filter.mp h6).2
    exact eq_of_beq this

/-! ### Claim theorems -/

unseal Rat.sub Rat.mul Rat.add Rat.inv Rat.ofScientific List.mergeSort List.merge in
/-- Claim C2: (counterexample to the claim as stated).  The claim says the
fallback result has the same record shape as the primary path minus only
the relevance-score attribute.  But the primary path returns
`{ ...hit._source, _score: hit._score, _id: hit._id }`: on a successful
engine response every record carries an `_id` attribute as well, which no
fallback record has — exhibited here on a one-hit engine response versus
the fallback for the same query. -/
theorem searchProducts_primary_has_id_attribute :
    (searchProducts seedProducts
        (Except.ok [⟨sionLuggage, 3/2, "B014TMV5YE"⟩]) (some "luggage") noFilters).all
      (fun r => r.esId.isSome) = true ∧
    (searchProducts seedProducts
        (Except.ok [⟨sionLuggage, 3/2, "B014TMV5YE"⟩]) (some "luggage") noFilters).length
      = 1 ∧
    (searchProducts seedProducts
        (Except.error "connect ECONNREFUSED") (some "luggage") noFilters).all
      (fun r => r.esId.isNone) = true ∧
    (searchProducts seedProducts
        (Except.error "connect ECONNREFUSED") (some "luggage") noFilters).length = 2 := by
  refine ⟨rfl, rfl, ?_, ?_⟩ <;> decide

/-- Claim C2: (amended).  On any failure of the external engine call,
`searchProducts` returns exactly the in-memory fallback result instead of
propagating the error, and the returned records are the fallback catalog
records with both engine-only attributes (`_score` and `_id`) absent. -/
theorem searchProducts_fallback_on_error (products : List RichProduct)
    (e : String) (q : Option String) (f : ServiceFilters) :
    searchProducts products (Except.error e) q f =
      (fallbackSearch products q f).map (fun p => SearchRecord.mk p none none) :=
  rfl

unseal Rat.sub Rat.mul Rat.add Rat.inv Rat.ofScientific List.mergeSort List.merge in
/-- Claim C8:.  The seeded catalogs satisfy the store invariants (unique
identifiers, non-negative prices, ratings within `[0, 5]` where present),
and every search/lookup operation of the service returns the state it was
given: the store is populated once by the constructor
(`initService.products = seedProducts`) and no operation mutates it
(`_fallbackSearch` filters and sorts a spread copy of `this.products`). -/
theorem catalog_invariants_and_immutability :
    initService.products = seedProducts ∧
    seedProducts.Pairwise (fun a b => a.asin ≠ b.asin) ∧
    seedProducts.all
      (fun p => decide (0 ≤ p.price) && (decide (0 ≤ p.stars) && decide (p.stars ≤ 5)))
      = true ∧
    dummyProducts.Pairwise (fun a b => a.id ≠ b.id) ∧
    dummyProducts.all (fun p => decide (0 ≤ p.price)) = true ∧
    ((detailProducts "1").elim false
      (fun p => decide (0 ≤ p.ratings) && decide (p.ratings ≤ 5))) = true ∧
    ((detailProducts "2").elim false
      (fun p => decide (0 ≤ p.ratings) && decide (p.ratings ≤ 5))) = true ∧
    (∀ st q f, (fallbackSearchOp st q f).2 = st) ∧
    (∀ st es q f, (searchProductsOp st es q f).2 = st) ∧
    (∀ st a, (getProductByIdOp st a).2 = st) := by
  refine ⟨rfl, ?_, ?_, ?_, ?_, ?_, ?_, fun _ _ _ => rfl, fun _ _ _ _ => rfl,
    fun _ _ => rfl⟩ <;> decide

unseal Rat.sub Rat.mul Rat.add Rat.inv Rat.ofScientific List.mergeSort List.merge in
/-- Claim C9:.  In the simple variant, product 3 ("Running Shoes") is in the
search handler's catalog and is returned by `GET /api/search?query=shoes`,
while `GET /api/products/3` answers 404 `{"error": "Product not found"}`,
because the product-detail handler's store only contains products 1 and 2. -/
theorem search_detail_catalog_inconsistency :
    (simpleSearch (simpleQueryOnly "shoes")).statusCode = 200 ∧
    (simpleSearch (simpleQueryOnly "shoes")).resultsList.any
      (fun p => p.id == 3 && p.name == "Running Shoes") = true ∧
    simpleGetProduct "3" = DetailResponse.notFound "Product not found" ∧
    (simpleGetProduct "3").statusCode = 404 := by
  refine ⟨rfl, ?_, ?_, ?_⟩ <;> decide

/-- Claim C10:.  With a valid query but a `limit` parameter that does not
parse as a number, the controller still answers 200: the slice bounds are
`NaN` (so `slice` yields an empty array), and the reported
`pagination.limit` and `pagination.pages` are the `NaN` coercions
(serialised as `null`), not the default `10`. -/
theorem nan_limit_yields_empty_200 (products : List RichProduct)
    (esOutcome : Except String (List EsHit)) (rq : RichQuery) (q s : String)
    (hq : rq.query = some q) (hq' : q ≠ "") (hl : rq.limit = some s)
    (hnum : jsToNumber s = none) (hint : jsParseInt s = none) :
    (controllerSearch products esOutcome rq).statusCode = 200 ∧
    (controllerSearch products esOutcome rq).resultsList = [] ∧
    (controllerSearch products esOutcome rq).limitField = none ∧
    (controllerSearch products esOutcome rq).pagesField = none := by
  have hln : limitNumber rq.limit = none := by rw [hl]; simpa [limitNumber] using hnum
  have hli : limitInt rq.limit = none := by rw [hl]; simpa [limitInt] using hint
  simp only [controllerSearch, hq, if_neg hq', hln, hli, jmul_none_right, jadd_none_left,
    jsSlice_none_none, jsPages, RichResponse.statusCode, RichResponse.resultsList,
    RichResponse.limitField, RichResponse.pagesField]
  exact ⟨trivial, trivial, trivial, trivial⟩

/-- Claim C10: witness: `GET /api/search?query=luggage&limit=abc` against the
seeded catalog with the engine down. -/
theorem nan_limit_yields_empty_200_witness :
    (controllerSearch seedProducts (Except.error "getaddrinfo ENOTFOUND")
        ⟨some "luggage", none, none, none, none, none, none, none, some "abc"⟩).statusCode
        = 200 ∧
    (controllerSearch seedProducts (Except.error "getaddrinfo ENOTFOUND")
        ⟨some "luggage", none, none, none, none, none, none, none, some "abc"⟩).resultsList
        = [] ∧
    (controllerSearch seedProducts (Except.error "getaddrinfo ENOTFOUND")
        ⟨some "luggage", none, none, none, none, none, none, none, some "abc"⟩).limitField
        = none ∧
    (controllerSearch seedProducts (Except.error "getaddrinfo ENOTFOUND")
        ⟨some "luggage", none, none, none, none, none, none, none, some "abc"⟩).pagesField
        = none :=
  nan_limit_yields_empty_200 seedProducts (Except.error "getaddrinfo ENOTFOUND")
    ⟨some "luggage", none, none, none, none, none, none, none, some "abc"⟩
    "luggage" "abc" rfl (by decide) rfl (by decide) (by decide)

unseal Rat.sub Rat.mul Rat.add Rat.inv Rat.ofScientific List.mergeSort List.merge in
/-- Claim C7: (counterexample to the claim as stated).  The claim requires a
400 for every query that is empty *after trimming*; but neither handler
trims: a single-space query is truthy, is accepted, and is searched
(every seeded name contains a space, so it even matches products). -/
theorem whitespace_query_accepted :
    (" " : String).data.all Char.isWhitespace = true ∧
    (simpleSearch (simpleQueryOnly " ")).statusCode = 200 ∧
    (simpleSearch (simpleQueryOnly " ")).resultsList.length = 3 := by
  refine ⟨by decide, rfl, by decide⟩

/-- Claim C7: (amended).  Both variants answer 400 with their respective
error body exactly when the `query` parameter is missing or is the empty
string (no trimming is applied); for any other query the 400 branch is not
taken. -/
theorem missing_query_rejection (rq : SimpleQuery) (products : List RichProduct)
    (esOutcome : Except String (List EsHit)) (rrq : RichQuery) :
    ((simpleSearch rq).statusCode = 400 ↔ (rq.query = none ∨ rq.query = some "")) ∧
    ((rq.query = none ∨ rq.query = some "") →
      simpleSearch rq = SimpleResponse.badRequest "Search query is required") ∧
    ((controllerSearch products esOutcome rrq).statusCode = 400 ↔
      (rrq.query = none ∨ rrq.query = some "")) ∧
    ((rrq.query = none ∨ rrq.query = some "") →
      controllerSearch products esOutcome rrq =
        RichResponse.badRequest "Query parameter is required"
          "Please provide a search query using ?query=your-search-term") := by
  refine ⟨?_, ?_, ?_, ?_⟩
  · cases hq : rq.query with
    | none => simp [simpleSearch, hq, SimpleResponse.statusCode]
    | some s =>
      by_cases hs : s = "" <;>
        simp [simpleSearch, hq, hs, SimpleResponse.statusCode]
  · intro h
    cases hq : rq.query with
    | none => simp [simpleSearch, hq]
    | some s =>
      rcases h with h | h
      · rw [hq] at h; cases h
      · rw [hq] at h
        injection h with h
        simp [simpleSearch, hq, h]
  · cases hq : rrq.query with
    | none => simp [controllerSearch, hq, RichResponse.statusCode]
    | some s =>
      by_cases hs : s = "" <;>
        simp [controllerSearch, hq, hs, RichResponse.statusCode]
  · intro h
    cases hq : rrq.query with
    | none => simp [controllerSearch, hq]
    | some s =>
      rcases h with h | h
      · rw [hq] at h; cases h
      · rw [hq] at h
        injection h with h
        simp [controllerSearch, hq, h]

/-- Claim C7: witness: a request with no `query` parameter is rejected by
both variants with the respective message, and `?query=luggage` is not. -/
theorem missing_query_rejection_witness :
    simpleSearch ⟨none, none, none, none, none, none⟩ =
      SimpleResponse.badRequest "Search query is required" ∧
    controllerSearch seedProducts (Except.error "down")
        ⟨none, none, none, none, none, none, none, none, none⟩ =
      RichResponse.badRequest "Query parameter is required"
        "Please provide a search query using ?query=your-search-term" ∧
    ((controllerSearch seedProducts (Except.error "down") (queryOnly "luggage")).statusCode
      = 400 ↔ False) :=
  ⟨(missing_query_rejection ⟨none, none, none, none, none, none⟩ seedProducts
      (Except.error "down") ⟨none, none, none, none, none, none, none, none, none⟩).2.1
      (Or.inl rfl),
   (missing_query_rejection ⟨none, none, none, none, none, none⟩ seedProducts
      (Except.error "down") ⟨none, none, none, none, none, none, none, none, none⟩).2.2.2
      (Or.inl rfl),
   by
    rw [(missing_query_rejection ⟨none, none, none, none, none, none⟩ seedProducts
      (Except.error "down") (queryOnly "luggage")).2.2.1]
    simp [queryOnly]⟩

/-! ### Query-match soundness (C3) -/

theorem sublist_applySimpleCategoryFilter (c : Option String) (l : List SimpleProduct) :
    (applySimpleCategoryFilter c l).Sublist l := by
  cases c with
  | none => exact List.Sublist.refl l
  | some s =>
    simp only [applySimpleCategoryFilter]
    split
    · exact List.Sublist.refl l
    · exact List.filter_sublist l

theorem sublist_applySimpleMinPriceFilter (c : Option String) (l : List SimpleProduct) :
    (applySimpleMinPriceFilter c l).Sublist l := by
  cases c with
  | none => exact List.Sublist.refl l
  | some s =>
    simp only [applySimpleMinPriceFilter]
    split
    · exact List.Sublist.refl l
    · exact List.filter_sublist l

theorem sublist_applySimpleMaxPriceFilter (c : Option String) (l : List SimpleProduct) :
    (applySimpleMaxPriceFilter c l).Sublist l := by
  cases c with
  | none => exact List.Sublist.refl l
  | some s =>
    simp only [applySimpleMaxPriceFilter]
    split
    · exact List.Sublist.refl l
    · exact List.filter_sublist l

/-- Claim C3:.  Query-match soundness of both in-memory searches: every
record of a `_fallbackSearch` result for a non-empty query contains the
lower-cased query as a substring of its lower-cased title or of its
lower-cased ASIN, and every record of the simple handler's result contains
it in the lower-cased name or lower-cased description (OR-semantics
between the two text fields in both variants). -/
theorem query_match_soundness :
    (∀ (products : List RichProduct) (q : String) (f : ServiceFilters) (p : RichProduct),
      q ≠ "" → p ∈ fallbackSearch products (some q) f →
        lowerChars q <:+: lowerChars p.title ∨ lowerChars q <:+: lowerChars p.asin) ∧
    (∀ (rq : SimpleQuery) (q : String) (p : SimpleProduct),
      rq.query = some q → q ≠ "" → p ∈ (simpleSearch rq).resultsList →
        lowerChars q <:+: lowerChars p.name ∨ lowerChars q <:+: lowerChars p.description) := by
  constructor
  · intro products q f p hq hp
    have h1 : p ∈ applyQueryFilter (some q) products :=
      mem_of_mem_applyCategoryFilter
        (mem_of_mem_applyMinPriceFilter
          (mem_of_mem_applyMaxPriceFilter
            (mem_of_mem_applyMinStarsFilter
              (mem_of_mem_applyBestSellerFilter (List.mem_mergeSort.mp hp)))))
    rw [applyQueryFilter.eq_def] at h1
    simp only [if_neg hq] at h1
    have h2 := (List.mem_filter.mp h1).2
    simpa only [queryMatches, includesB, Bool.or_eq_true, decide_eq_true_eq] using h2
  · intro rq q p hrq hq hp
    rw [simpleSearch.eq_def, hrq] at hp
    simp only [if_neg hq, SimpleResponse.resultsList] at hp
    have h1 : p ∈ dummyProducts.filter (simpleNameDescPred q) :=
      (sublist_applySimpleCategoryFilter _ _).subset
        ((sublist_applySimpleMinPriceFilter _ _).subset
          ((sublist_applySimpleMaxPriceFilter _ _).subset hp))
    have h2 := (List.mem_filter.mp h1).2
    simpa only [simpleNameDescPred, includesB, Bool.or_eq_true, decide_eq_true_eq] using h2

unseal Rat.sub Rat.mul Rat.add Rat.inv Rat.ofScientific List.mergeSort List.merge in
/-- Claim C3: witness: for the fallback search over the seeded catalog with
query `luggage` and no filters, the Samsonite record is in the result and
its lower-cased title contains `luggage`. -/
theorem query_match_soundness_witness :
    (("luggage" : String) ≠ "" ∧
      samsoniteLuggage ∈ fallbackSearch seedProducts (some "luggage") noFilters) ∧
    (lowerChars "luggage" <:+: lowerChars samsoniteLuggage.title ∨
      lowerChars "luggage" <:+: lowerChars samsoniteLuggage.asin) :=
  ⟨⟨by decide, by decide⟩,
   query_match_soundness.1 seedProducts "luggage" noFilters samsoniteLuggage
     (by decide) (by decide)⟩

/-! ### Result ordering (C4) -/

/-- The ordering the specification describes: `a` may precede `b` when `a`
beats `b` on the best-seller flag, or ties on it and beats `b` on stars,
or ties on both and has at least `b`'s popularity. -/
def specOrder (a b : RichProduct) : Prop :=
  (a.isBestSeller = true ∧ b.isBestSeller = false) ∨
    (a.isBestSeller = b.isBestSeller ∧
      (b.stars < a.stars ∨
        (a.stars = b.stars ∧ b.boughtInLastMonth ≤ a.boughtInLastMonth)))

theorem jsSortLe_iff (a b : RichProduct) : jsSortLe a b = true ↔ specOrder a b := by
  unfold jsSortLe jsComparator specOrder jsBoolNum
  by_cases hbs : a.isBestSeller = b.isBestSeller
  · rw [if_neg (not_not_intro hbs)]
    by_cases hst : a.stars = b.stars
    · rw [if_neg (not_not_intro hst), decide_eq_true_eq]
      constructor
      · intro h
        refine Or.inr ⟨hbs, Or.inr ⟨hst, ?_⟩⟩
        exact_mod_cast sub_nonpos.mp h
      · rintro (⟨h1, h2⟩ | ⟨-, (h2 | ⟨-, h3⟩)⟩)
        · rw [h1, h2] at hbs; cases hbs
        · exact absurd h2 (by rw [hst]; exact lt_irrefl _)
        · exact sub_nonpos.mpr (by exact_mod_cast h3)
    · rw [if_pos hst, decide_eq_true_eq]
      constructor
      · intro h
        refine Or.inr ⟨hbs, Or.inl ?_⟩
        exact lt_of_le_of_ne (sub_nonpos.mp h) (fun hh => hst hh.symm)
      · rintro (⟨h1, h2⟩ | ⟨-, (h2 | ⟨h2, -⟩)⟩)
        · rw [h1, h2] at hbs; cases hbs
        · exact sub_nonpos.mpr (le_of_lt h2)
        · exact absurd h2 hst
  · rw [if_pos hbs]
    cases hA : a.isBestSeller <;> cases hB : b.isBestSeller
    · rw [hA, hB] at hbs; cases hbs rfl
    · rw [decide_eq_true_eq]
      constructor
      · intro h; norm_num at h
      · rintro (⟨h1, -⟩ | ⟨h1, -⟩) <;> cases h1
    · rw [decide_eq_true_eq]
      constructor
      · intro _; exact Or.inl ⟨rfl, rfl⟩
      · intro _; norm_num
    · rw [hA, hB] at hbs; cases hbs rfl

theorem jsSortLe_total (a b : RichProduct) : jsSortLe a b || jsSortLe b a := by
  rw [Bool.or_eq_true, jsSortLe_iff, jsSortLe_iff]
  by_cases hbs : a.isBestSeller = b.isBestSeller
  · rcases lt_trichotomy a.stars b.stars with h | h | h
    · exact Or.inr (Or.inr ⟨hbs.symm, Or.inl h⟩)
    · rcases Nat.le_total b.boughtInLastMonth a.boughtInLastMonth with hb | hb
      · exact Or.inl (Or.inr ⟨hbs, Or.inr ⟨h, hb⟩⟩)
      · exact Or.inr (Or.inr ⟨hbs.symm, Or.inr ⟨h.symm, hb⟩⟩)
    · exact Or.inl (Or.inr ⟨hbs, Or.inl h⟩)
  · cases hA : a.isBestSeller <;> cases hB : b.isBestSeller
    · rw [hA, hB] at hbs; cases hbs rfl
    · exact Or.inr (Or.inl ⟨hB, hA⟩)
    · exact Or.inl (Or.inl ⟨hA, hB⟩)
    · rw [hA, hB] at hbs; cases hbs rfl

theorem jsSortLe_trans (a b c : RichProduct) :
    jsSortLe a b → jsSortLe b c → jsSortLe a c := by
  intro h1 h2
  rw [jsSortLe_iff] at h1 h2 ⊢
  rcases h1 with ⟨ha, hb⟩ | ⟨hab, h1⟩
  · rcases h2 with ⟨hb', hc⟩ | ⟨hbc, h2⟩
    · rw [hb] at hb'; cases hb'
    · exact Or.inl ⟨ha, hbc ▸ hb⟩
  · rcases h2 with ⟨hb', hc⟩ | ⟨hbc, h2⟩
    · exact Or.inl ⟨hab.trans hb', hc⟩
    · refine Or.inr ⟨hab.trans hbc, ?_⟩
      rcases h1 with h1 | ⟨he1, hm1⟩
      · rcases h2 with h2 | ⟨he2, hm2⟩
        · exact Or.inl (h2.trans h1)
        · exact Or.inl (he2 ▸ h1)
      · rcases h2 with h2 | ⟨he2, hm2⟩
        · refine Or.inl ?_
          rw [he1]
          exact h2
        · exact Or.inr ⟨he1.trans he2, hm2.trans hm1⟩

/-- Claim C4:.  The in-memory fallback result of the rich variant is sorted
by best-seller flag descending, then stars descending (applied only on
equal flags), then popularity descending (applied only on equal flags and
stars); the simple variant applies no sort, so its result is a sublist of
the catalog, preserving insertion order. -/
theorem result_ordering :
    (∀ (products : List RichProduct) (q : Option String) (f : ServiceFilters),
      (fallbackSearch products q f).Pairwise specOrder) ∧
    (∀ rq : SimpleQuery, (simpleSearch rq).resultsList.Sublist dummyProducts) := by
  constructor
  · intro products q f
    exact (List.sorted_mergeSort jsSortLe_trans jsSortLe_total _).imp
      (fun h => (jsSortLe_iff _ _).mp h)
  · intro rq
    cases hq : rq.query with
    | none =>
      simp only [simpleSearch, hq, SimpleResponse.resultsList]
      exact List.nil_sublist _
    | some s =>
      by_cases hs : s = ""
      · simp only [simpleSearch, hq, if_pos hs, SimpleResponse.resultsList]
        exact List.nil_sublist _
      · simp only [simpleSearch, hq, if_neg hs, SimpleResponse.resultsList]
        exact ((sublist_applySimpleMaxPriceFilter _ _).trans
          ((sublist_applySimpleMinPriceFilter _ _).trans
            ((sublist_applySimpleCategoryFilter _ _).trans
              (List.filter_sublist _))))

/-! ### Pagination (C5, C6) -/

theorem jsTrunc_intCast (z : ℤ) : jsTrunc ((z : ℚ)) = z := by
  unfold jsTrunc
  by_cases h : ((z : ℚ)) < 0
  · rw [if_pos h]
    have hz : -((z : ℚ)) = (((-z : ℤ)) : ℚ) := by push_cast; ring
    rw [hz, Int.floor_intCast]
    ring
  · rw [if_neg h, Int.floor_intCast]

theorem jsNormIdx_some (len : ℕ) (q : ℚ) :
    jsNormIdx len (some q) =
      if jsTrunc q < 0 then ((len : ℤ) + jsTrunc q).toNat
      else min (jsTrunc q).toNat len := rfl

theorem jsNormIdx_natCast (len n : ℕ) :
    jsNormIdx len (some ((n : ℕ) : ℚ)) = min n len := by
  have ht : jsTrunc (((n : ℕ)) : ℚ) = ((n : ℕ) : ℤ) := by
    have := jsTrunc_intCast ((n : ℕ) : ℤ)
    rwa [Int.cast_natCast] at this
  rw [jsNormIdx_some, ht, if_neg (by exact_mod_cast Nat.not_lt_zero n), Int.toNat_natCast]

theorem jsSlice_eq {α : Type} (l : List α) (s e : Option ℚ) :
    jsSlice l s e =
      (l.drop (jsNormIdx l.length s)).take
        (jsNormIdx l.length e - jsNormIdx l.length s) := rfl

theorem jsSlice_natCast {α : Type} (l : List α) (a b : ℕ) :
    jsSlice l (some ((a : ℕ) : ℚ)) (some ((b : ℕ) : ℚ)) = (l.drop a).take (b - a) := by
  rw [jsSlice_eq, jsNormIdx_natCast, jsNormIdx_natCast]
  rcases le_or_lt a l.length with h | h
  · rw [min_eq_left h]
    rcases le_or_lt b l.length with h2 | h2
    · rw [min_eq_left h2]
    · rw [min_eq_right (le_of_lt h2)]
      refine List.take_eq_take.mpr ?_
      rw [List.length_drop]
      omega
  · rw [min_eq_right (le_of_lt h), List.drop_length,
      List.drop_eq_nil_of_le (le_of_lt h)]
    simp

theorem jsSlice_end_zero {α : Type} (l : List α) (s : Option ℚ) :
    jsSlice l s (some 0) = [] := by
  rw [jsSlice_eq, jsNormIdx_some]
  norm_num [jsTrunc]

theorem jsub_some (a b : ℚ) : jsub (some a) (some b) = some (a - b) := rfl

theorem jmul_some (a b : ℚ) : jmul (some a) (some b) = some (a * b) := rfl

theorem jadd_some (a b : ℚ) : jadd (some a) (some b) = some (a + b) := rfl

theorem intToNum_some (i : ℤ) : intToNum (some i) = some ((i : ℚ)) := rfl

theorem jsPages_some (t : ℕ) (l : ℚ) :
    jsPages t (some l) = if l = 0 then none else some (Int.ceil ((t : ℚ) / l)) := rfl

theorem jsSlice_start_ge_length {α : Type} (l : List α) (c : ℤ) (e : Option ℚ)
    (h : (l.length : ℤ) ≤ c) : jsSlice l (some ((c : ℚ))) e = [] := by
  rw [jsSlice_eq, jsNormIdx_some, jsTrunc_intCast]
  rw [if_neg (by omega)]
  have hlen : l.length ≤ c.toNat := by omega
  rw [min_eq_right hlen, List.drop_length]
  simp

/-- Claim C5: (amended).  In the rich variant, for a valid query and numeric
pagination parameters with `page ≥ 1`, the controller returns exactly the
window `[(page-1)·limit, (page-1)·limit + limit)` of the full (already
filtered and sorted) result sequence, so `results.length ≤ limit`; it
reports `total` as the full match count before slicing and, for
`limit ≥ 1`, `pages = ⌈total / limit⌉`.  (The simple variant does not
slice at all — see the counterexample.) -/
theorem pagination_window (products : List RichProduct)
    (esOutcome : Except String (List EsHit)) (rq : RichQuery) (q : String)
    (page limit : ℕ)
    (hq : rq.query = some q) (hq' : q ≠ "")
    (hp : pageNumber rq.page = some ((page : ℕ) : ℚ))
    (hl : limitNumber rq.limit = some ((limit : ℕ) : ℚ))
    (hli : limitInt rq.limit = some ((limit : ℕ) : ℤ))
    (hpage : 1 ≤ page) :
    (controllerSearch products esOutcome rq).resultsList =
      ((searchProducts products esOutcome (some q)
          ⟨none, rq.minPrice, rq.maxPrice, none, none⟩).drop ((page - 1) * limit)).take limit ∧
    (controllerSearch products esOutcome rq).resultsList.length ≤ limit ∧
    (controllerSearch products esOutcome rq).totalCount =
      (searchProducts products esOutcome (some q)
        ⟨none, rq.minPrice, rq.maxPrice, none, none⟩).length ∧
    (1 ≤ limit → (controllerSearch products esOutcome rq).pagesField =
      some (Int.ceil (((searchProducts products esOutcome (some q)
          ⟨none, rq.minPrice, rq.maxPrice, none, none⟩).length : ℚ) / ((limit : ℕ) : ℚ)))) := by
  have hstart : jmul (jsub (pageNumber rq.page) (some 1)) (limitNumber rq.limit)
      = some ((((page - 1) * limit : ℕ)) : ℚ) := by
    rw [hp, hl, jsub_some, jmul_some]
    congr 1
    push_cast [Nat.cast_sub hpage]
    ring
  have hend : jadd (some ((((page - 1) * limit : ℕ)) : ℚ)) (intToNum (limitInt rq.limit))
      = some ((((page - 1) * limit + limit : ℕ)) : ℚ) := by
    rw [hli, intToNum_some, jadd_some]
    congr 1
    push_cast
    ring
  simp only [controllerSearch, hq, if_neg hq', hstart, hend, jsSlice_natCast,
    RichResponse.resultsList, RichResponse.totalCount, RichResponse.pagesField]
  have hsub : (page - 1) * limit + limit - (page - 1) * limit = limit := by omega
  rw [hsub]
  refine ⟨rfl, List.length_take_le _ _, by trivial, ?_⟩
  intro hlim
  rw [hl, jsPages_some, if_neg (by exact_mod_cast (by omega : ¬ limit = 0))]

unseal Rat.sub Rat.mul Rat.add Rat.inv Rat.ofScientific List.mergeSort List.merge in
/-- Claim C5: witness: `?query=luggage&page=2&limit=1` against the seeded
catalog with the engine down (two matches; the second page holds the
second record of the sorted sequence). -/
theorem pagination_window_witness :
    (controllerSearch seedProducts (Except.error "down")
        ⟨some "luggage", none, none, none, none, none, none, some "2", some "1"⟩).resultsList =
      ((searchProducts seedProducts (Except.error "down") (some "luggage")
          ⟨none, none, none, none, none⟩).drop ((2 - 1) * 1)).take 1 ∧
    (controllerSearch seedProducts (Except.error "down")
        ⟨some "luggage", none, none, none, none, none, none, some "2", some "1"⟩).resultsList.length
      ≤ 1 ∧
    (controllerSearch seedProducts (Except.error "down")
        ⟨some "luggage", none, none, none, none, none, none, some "2", some "1"⟩).totalCount =
      (searchProducts seedProducts (Except.error "down") (some "luggage")
        ⟨none, none, none, none, none⟩).length ∧
    (1 ≤ 1 → (controllerSearch seedProducts (Except.error "down")
        ⟨some "luggage", none, none, none, none, none, none, some "2", some "1"⟩).pagesField =
      some (Int.ceil (((searchProducts seedProducts (Except.error "down") (some "luggage")
          ⟨none, none, none, none, none⟩).length : ℚ) / (((1 : ℕ)) : ℚ)))) :=
  pagination_window seedProducts (Except.error "down")
    ⟨some "luggage", none, none, none, none, none, none, some "2", some "1"⟩
    "luggage" 2 1 rfl (by decide) (by decide) (by decide) (by decide) (by decide)

unseal Rat.sub Rat.mul Rat.add Rat.inv Rat.ofScientific List.mergeSort List.merge in
/-- Claim C5: (counterexample to the claim as stated).  The claim covers
"every search response", but the simple variant's handler never slices:
with `?query=s&limit=1` it reports `limit = 1` yet returns all three
matching records, so `results.length ≤ limit` fails there. -/
theorem simple_variant_does_not_slice :
    (simpleSearch ⟨some "s", none, none, none, none, some "1"⟩).limitField = some 1 ∧
    (simpleSearch ⟨some "s", none, none, none, none, some "1"⟩).resultsList.length = 3 ∧
    ¬ ((simpleSearch ⟨some "s", none, none, none, none, some "1"⟩).resultsList.length ≤ 1) := by
  refine ⟨by decide, by decide, by decide⟩

/-- Claim C6: (amended).  In the rich variant, `page = 0` and every numeric
`page ≥ 1` whose offset `(page-1)·limit` is at or beyond the total yield
an empty `results` with `total` unchanged and status 200.  (For negative
pages the claim fails — see the counterexample.) -/
theorem out_of_range_page_empty (products : List RichProduct)
    (esOutcome : Except String (List EsHit)) (rq : RichQuery) (q : String)
    (page : ℤ) (limit : ℕ)
    (hq : rq.query = some q) (hq' : q ≠ "")
    (hp : pageNumber rq.page = some ((page : ℤ) : ℚ))
    (hl : limitNumber rq.limit = some ((limit : ℕ) : ℚ))
    (hli : limitInt rq.limit = some ((limit : ℕ) : ℤ))
    (hcond : page = 0 ∨ (1 ≤ page ∧
      ((searchProducts products esOutcome (some q)
          ⟨none, rq.minPrice, rq.maxPrice, none, none⟩).length : ℤ) ≤ (page - 1) * limit)) :
    (controllerSearch products esOutcome rq).statusCode = 200 ∧
    (controllerSearch products esOutcome rq).resultsList = [] ∧
    (controllerSearch products esOutcome rq).totalCount =
      (searchProducts products esOutcome (some q)
        ⟨none, rq.minPrice, rq.maxPrice, none, none⟩).length := by
  rcases hcond with h0 | ⟨h1, h2⟩
  · subst h0
    have hstart : jmul (jsub (pageNumber rq.page) (some 1)) (limitNumber rq.limit)
        = some (-((limit : ℕ) : ℚ)) := by
      rw [hp, hl, jsub_some, jmul_some]
      congr 1
      push_cast
      ring
    have hend : jadd (some (-((limit : ℕ) : ℚ))) (intToNum (limitInt rq.limit))
        = some 0 := by
      rw [hli, intToNum_some, jadd_some]
      congr 1
      push_cast
      ring
    simp only [controllerSearch, hq, if_neg hq', hstart, hend, jsSlice_end_zero,
      RichResponse.statusCode, RichResponse.resultsList, RichResponse.totalCount]
    exact ⟨by trivial, by trivial, by trivial⟩
  · have hstart : jmul (jsub (pageNumber rq.page) (some 1)) (limitNumber rq.limit)
        = some ((((page - 1) * limit : ℤ)) : ℚ) := by
      rw [hp, hl, jsub_some, jmul_some]
      congr 1
      push_cast
      ring
    simp only [controllerSearch, hq, if_neg hq', hstart,
      RichResponse.statusCode, RichResponse.resultsList, RichResponse.totalCount]
    exact ⟨by trivial, jsSlice_start_ge_length _ _ _ h2, by trivial⟩

unseal Rat.sub Rat.mul Rat.add Rat.inv Rat.ofScientific List.mergeSort List.merge in
/-- Claim C6: witness: `?query=luggage&page=5&limit=10` (offset 40 is beyond
the two matches) yields 200 with empty `results` and `total` = 2. -/
theorem out_of_range_page_empty_witness :
    (controllerSearch seedProducts (Except.error "down")
        ⟨some "luggage", none, none, none, none, none, none, some "5", some "10"⟩).statusCode
      = 200 ∧
    (controllerSearch seedProducts (Except.error "down")
        ⟨some "luggage", none, none, none, none, none, none, some "5", some "10"⟩).resultsList
      = [] ∧
    (controllerSearch seedProducts (Except.error "down")
        ⟨some "luggage", none, none, none, none, none, none, some "5", some "10"⟩).totalCount =
      (searchProducts seedProducts (Except.error "down") (some "luggage")
        ⟨none, none, none, none, none⟩).length :=
  out_of_range_page_empty seedProducts (Except.error "down")
    ⟨some "luggage", none, none, none, none, none, none, some "5", some "10"⟩
    "luggage" 5 10 rfl (by decide) (by decide) (by decide) (by decide)
    (Or.inr ⟨by decide, by decide⟩)

unseal Rat.sub Rat.mul Rat.add Rat.inv Rat.ofScientific List.mergeSort List.merge in
/-- Claim C6: (counterexample to the claim as stated).  The claim includes
every `page ≤ 0`, but for `?query=a&page=-1&limit=2` the slice bounds are
`-4` and `-2`, which JavaScript interprets relative to the end of the
3-element result, returning one record — not an empty slice. -/
theorem negative_page_nonempty :
    pageInt (some "-1") = some (-1) ∧
    (controllerSearch seedProducts (Except.error "socket hang up")
        ⟨some "a", none, none, none, none, none, none, some "-1", some "2"⟩).statusCode = 200 ∧
    (controllerSearch seedProducts (Except.error "socket hang up")
        ⟨some "a", none, none, none, none, none, none, some "-1", some "2"⟩).resultsList.length
      = 1 := by
  refine ⟨by decide, rfl, by decide⟩

set_option maxRecDepth 4000 in
unseal Rat.sub Rat.mul Rat.add Rat.inv Rat.ofScientific List.mergeSort List.merge in
/-- Claim C1: (the code violates the claim).  `ProductController.search`
forwards only `{ category, minPrice, maxPrice }` to the service, while the
service destructures `category_id`, `minStars` and `isBestSeller` — so a
best-seller filter (or a `category_id` filter) supplied over HTTP never
reaches the fallback filter.  For
`GET /api/search?query=luggage&isBestSeller=true` (engine down), the
response contains the non-best-seller Sion record; the repository's own
test suite ("should filter by best seller status", `tests/api.test.js`)
asserts the opposite, so this is a bug in the code, not in the claim.
Likewise `?query=apple&category_id=104` returns a record of category 201. -/
theorem supplied_bestseller_filter_ignored :
    (controllerSearch seedProducts (Except.error "ES search failed")
        ⟨some "luggage", none, none, none, none, none, some "true", none, none⟩).statusCode
      = 200 ∧
    (controllerSearch seedProducts (Except.error "ES search failed")
        ⟨some "luggage", none, none, none, none, none, some "true", none, none⟩).resultsList.any
      (fun r => !r.source.isBestSeller) = true ∧
    ¬ ((controllerSearch seedProducts (Except.error "ES search failed")
        ⟨some "luggage", none, none, none, none, none, some "true", none, none⟩).resultsList.all
      (fun r => r.source.isBestSeller) = true) ∧
    (controllerSearch seedProducts (Except.error "ES search failed")
        ⟨some "apple", none, some "104", none, none, none, none, none, none⟩).resultsList.any
      (fun r => r.source.category_id == 201) = true := by
  refine ⟨rfl, by decide, by decide, by decide⟩

end Ecom
